import Mathlib

/- Shallow embedding of the validation-and-execution core of the FFmpeg MCP
server (src/server.py): the command validator, the working-directory
validator, the executor, and the two request-handling paths (JSON-RPC
tools/call and REST invoke).  Filesystem queries and the behaviour of the
spawned child process are abstracted as explicit parameters, so every
definition is a total, executable Lean function mirroring the Python code
line by line. -/

namespace FFmpegMCP

/-- The characters Python str.strip() removes, i.e. exactly those with
str.isspace() true: ASCII whitespace \t \n \x0b \x0c \r and space, the
separators \x1c-\x1f, NEL \x85, NBSP \xa0, and the Unicode space
characters u1680, u2000-u200a, u2028, u2029, u202f, u205f, u3000. -/
def pySpaceChars : List Char :=
  [' ', '\t', '\n', '\x0b', '\x0c', '\r',
   '\x1c', '\x1d', '\x1e', '\x1f', '\x85', '\xa0',
   '\u1680', '\u2000', '\u2001', '\u2002', '\u2003', '\u2004', '\u2005',
   '\u2006', '\u2007', '\u2008', '\u2009', '\u200a',
   '\u2028', '\u2029', '\u202f', '\u205f', '\u3000']

/-- Is c Python whitespace (c.isspace())? -/
def isPySpace (c : Char) : Bool :=
  pySpaceChars.contains c

/-- Model of Python str.strip(): drop leading and trailing whitespace. -/
def pyStrip (s : String) : String :=
  ⟨((s.data.dropWhile isPySpace).reverse.dropWhile isPySpace).reverse⟩

/-- Does the first char list start with the second (the pattern)? -/
def hasPrefixChars : List Char → List Char → Bool
  | _, [] => true
  | [], _ :: _ => false
  | c :: cs, p :: ps => p == c && hasPrefixChars cs ps

/-- Does the char list contain the pattern as a contiguous sublist?
Model of Python substring containment (pat in s). -/
def hasSubChars (pat : List Char) : List Char → Bool
  | [] => hasPrefixChars [] pat
  | c :: cs => hasPrefixChars (c :: cs) pat || hasSubChars pat cs

/-- Python pat in s (substring containment). -/
def strContains (s pat : String) : Bool :=
  hasSubChars pat.data s.data

/-- Python s.startswith(pre). -/
def pyStartsWith (s pre : String) : Bool :=
  hasPrefixChars s.data pre.data

/-- src/server.py line 320: shell operators blocked by the validator. -/
def BLOCKED_OPERATORS : List String :=
  ["&&", "||", ";", "|", ">", "<", "`", "$", "$(", "$\x7b"]

/-- The for-loop of validate_command (lines 335-337): first blocked
operator occurring in the command, if any. -/
def firstBlocked (command : String) : Option String :=
  BLOCKED_OPERATORS.find? (fun op => strContains command op)

/-- src/server.py lines 322-343: FFmpegCommandValidator.validate_command.
Returns (is_valid, error_message). -/
def validate_command (command : String) : Bool × String :=
  if pyStartsWith (pyStrip command) "ffmpeg " then
    match firstBlocked command with
    | some op => (false, "Blocked shell operator detected: " ++ op)
    | none =>
      if strContains command "\n" || strContains command "\r" then
        (false, "Newlines are not allowed in commands")
      else
        (true, "")
  else
    (false, "Command must start with 'ffmpeg '")

/-- Abstract filesystem environment: the os functions the validator
consults.  abspath returns Except.error e when path resolution raises
(e is str(exception)), mirroring the try/except in validate_working_dir. -/
structure FS where
  getcwd : String
  abspath : String → Except String String
  pathExists : String → Bool
  isdir : String → Bool

/-- src/server.py lines 345-369: FFmpegCommandValidator.validate_working_dir.
Returns (is_valid, error_message, resolved_path).  Python `if not
working_dir` is true for both None and the empty string. -/
def validate_working_dir (fs : FS) (working_dir : Option String) :
    Bool × String × Option String :=
  match working_dir with
  | none => (true, "", some fs.getcwd)
  | some w =>
    if w = "" then (true, "", some fs.getcwd)
    else
      match fs.abspath w with
      | Except.error e => (false, "Invalid working directory: " ++ e, none)
      | Except.ok resolved =>
        if fs.pathExists resolved then
          if fs.isdir resolved then (true, "", some resolved)
          else (false, "Working directory is not a directory: " ++ resolved, none)
        else (false, "Working directory does not exist: " ++ resolved, none)

/-- Behaviour of the subprocess.run call inside FFmpegExecutor.execute:
it completes with an exit code and captured output, raises TimeoutExpired,
or raises some other exception with message msg. -/
inductive ProcOutcome where
  | completed (returncode : Int) (stdout stderr : String)
  | timedOut
  | faulted (msg : String)
deriving DecidableEq

/-- The dict returned by FFmpegExecutor.execute: success flag, exitCode,
logs.stdout, logs.stderr, and the optional "error" key (absent = none). -/
structure ExecResult where
  success : Bool
  exitCode : Int
  stdout : String
  stderr : String
  error : Option String
deriving DecidableEq

/-- The f-string fragment {timeout if timeout is not None else 'unlimited'}. -/
def timeoutStr : Option Int → String
  | some t => toString t
  | none => "unlimited"

/-- src/server.py lines 375-446: FFmpegExecutor.execute.  The Python
signature annotates working_dir as str, but the call sites pass the
validator's resolved path (Optional in its type); execute never inspects
it, so it is carried as Option String here.  proc is the behaviour of the
subprocess.run call. -/
def execute (command : String) (working_dir : Option String)
    (timeout : Option Int) (proc : ProcOutcome) : ExecResult :=
  match proc with
  | ProcOutcome.completed rc out err =>
    { success := rc == 0
      exitCode := rc
      stdout := out
      stderr := err
      error :=
        if rc ≠ 0 then some ("FFmpeg command failed with exit code " ++ toString rc)
        else none }
  | ProcOutcome.timedOut =>
    let msg := "Command timed out after " ++ timeoutStr timeout ++ " seconds"
    { success := false, exitCode := -1, stdout := "", stderr := msg, error := some msg }
  | ProcOutcome.faulted e =>
    let msg := "Execution error: " ++ e
    { success := false, exitCode := -1, stdout := "", stderr := msg, error := some msg }

/-- Pydantic parsing of FFmpegExecuteRequest (src/server.py lines 295-306):
the command field validator requires strip().startswith('ffmpeg ') and
replaces the command by its stripped form; timeout, when present, must lie
in 1..21600.  Returns the canonical command, or none when a ValueError /
ValidationError is raised. -/
def parseRequest (command : String) (timeout : Option Int) : Option String :=
  if pyStartsWith (pyStrip command) "ffmpeg " then
    match timeout with
    | some t => if 1 ≤ t ∧ t ≤ 21600 then some (pyStrip command) else none
    | none => some (pyStrip command)
  else none

/-- Outcome of the pipeline shared by both request-handling paths:
pydantic rejection, validator rejection carrying the reason, or an
execution, recording exactly the arguments passed to
FFmpegExecutor.execute together with its result.  How each endpoint then
surfaces the outcome to its caller (the JSON-RPC envelope, and the REST
path's exception chain) is modelled separately by handleMcpToolsCall and
invokeToolRest below. -/
inductive Outcome where
  | parseError : Outcome
  | validationError : String → Outcome
  | executed : String → Option String → Option Int → ExecResult → Outcome
deriving DecidableEq

/-- src/server.py lines 130-197: the ffmpeg_execute branch of
handle_mcp_message (JSON-RPC tools/call).  Parses via FFmpegExecuteRequest,
runs validate_command then validate_working_dir, and only then calls
FFmpegExecutor.execute with timeout args.timeout if not None else 21600. -/
def mcpToolsCallCore (fs : FS) (proc : ProcOutcome) (command : String)
    (workingDir : Option String) (timeout : Option Int) : Outcome :=
  match parseRequest command timeout with
  | none => Outcome.parseError
  | some cmd =>
    match validate_command cmd with
    | (false, msg) => Outcome.validationError msg
    | (true, _) =>
      match validate_working_dir fs workingDir with
      | (false, msg, _) => Outcome.validationError msg
      | (true, _, resolved) =>
        let t : Option Int := some (timeout.getD 21600)
        Outcome.executed cmd resolved t (execute cmd resolved t proc)

/-- src/server.py lines 474-493: the try-body pipeline of the
ffmpeg.execute branch of invoke_tool (REST POST
/mcp/tools/ffmpeg.execute/invoke): pydantic parse, validate_command,
validate_working_dir, then FFmpegExecutor.execute with timeout
args.timeout if not None else 21600.  A validator failure makes the body
raise HTTPException(400, reason); what the endpoint's except clauses then
do with that exception is modelled by invokeToolRest below. -/
def invokeToolCore (fs : FS) (proc : ProcOutcome) (command : String)
    (workingDir : Option String) (timeout : Option Int) : Outcome :=
  match parseRequest command timeout with
  | none => Outcome.parseError
  | some cmd =>
    match validate_command cmd with
    | (false, msg) => Outcome.validationError msg
    | (true, _) =>
      match validate_working_dir fs workingDir with
      | (false, msg, _) => Outcome.validationError msg
      | (true, _, resolved) =>
        let t : Option Int := some (timeout.getD 21600)
        Outcome.executed cmd resolved t (execute cmd resolved t proc)

/-- Reply sent by handle_mcp_message for a tools/call of ffmpeg_execute:
either a JSON-RPC error object, or a result envelope whose isError flag is
not exec_result['success'] (the formatted output text is elided).  The
pydantic rejection's message ("Invalid parameters: " + str(e), with
pydantic's error text) is not modelled beyond its occurrence. -/
inductive McpReply where
  | invalidParams : McpReply
  | rpcError : Int → String → McpReply
  | toolResult : Bool → ExecResult → McpReply
deriving DecidableEq

/-- src/server.py lines 130-197: the full ffmpeg_execute branch of
handle_mcp_message.  Validator failures are returned directly as JSON-RPC
error objects with code -32602 carrying the reason verbatim; a completed
execution is returned as a result envelope. -/
def handleMcpToolsCall (fs : FS) (proc : ProcOutcome) (command : String)
    (workingDir : Option String) (timeout : Option Int) : McpReply :=
  match mcpToolsCallCore fs proc command workingDir timeout with
  | Outcome.parseError => McpReply.invalidParams
  | Outcome.validationError msg => McpReply.rpcError (-32602) msg
  | Outcome.executed _ _ _ r => McpReply.toolResult (!r.success) r

/-- str(e) for a starlette/FastAPI HTTPException: its library-defined
__str__ renders as "status_code: detail". -/
def strHTTPException (status : Nat) (detail : String) : String :=
  toString status ++ ": " ++ detail

/-- Response of the REST invoke endpoint: a raised HTTPException (status,
detail) or a 200 body carrying the execution result.  The pydantic
rejection (HTTPException(400, str(e)) raised from the except-ValueError
clause, which does propagate to the client) keeps only its occurrence. -/
inductive RestReply where
  | invalidParams : RestReply
  | httpError : Nat → String → RestReply
  | toolResult : ExecResult → RestReply
deriving DecidableEq

/-- src/server.py lines 474-510: the full invoke_tool endpoint for
ffmpeg.execute, including its except clauses.  The HTTPException(400,
reason) raised in the try body on a validator failure is NOT a ValueError,
so it is caught by the catch-all except Exception (lines 508-510) and
re-raised as HTTPException(500, "Internal server error: " + str(e)): the
REST caller receives a 500 server error, not the 400 client-input error. -/
def invokeToolRest (fs : FS) (proc : ProcOutcome) (command : String)
    (workingDir : Option String) (timeout : Option Int) : RestReply :=
  match invokeToolCore fs proc command workingDir timeout with
  | Outcome.parseError => RestReply.invalidParams
  | Outcome.validationError msg =>
    RestReply.httpError 500 ("Internal server error: " ++ strHTTPException 400 msg)
  | Outcome.executed _ _ _ r => RestReply.toolResult r

/-- A concrete filesystem for witnesses: cwd /work, identity resolution,
every path an existing directory. -/
def fsAll : FS :=
  { getcwd := "/work"
    abspath := fun s => Except.ok s
    pathExists := fun _ => true
    isdir := fun _ => true }

/-- Claim C1: whatever the command, working directory and optional timeout,
FFmpegExecutor.execute is a total function into ExecutionResult (no
unhandled fault escapes), and on the faulted path (any spawn/run failure
other than timeout) the result has succeeded=false, exitCode=-1, empty
stdout, and stderr/errorMessage describing the failure. -/
theorem execute_fault_normalized (command : String) (wd : Option String)
    (t : Option Int) (m : String) :
    execute command wd t (ProcOutcome.faulted m) =
      { success := false, exitCode := -1, stdout := "",
        stderr := "Execution error: " ++ m,
        error := some ("Execution error: " ++ m) } := rfl

/-- Claim C2: every ExecutionResult produced by FFmpegExecutor.execute, on
the completed, timed-out and faulted paths alike, satisfies: succeeded is
true iff exitCode = 0, and errorMessage is present iff succeeded is false. -/
theorem execute_result_invariant (command : String) (wd : Option String)
    (t : Option Int) (proc : ProcOutcome) :
    ((execute command wd t proc).success = true ↔
      (execute command wd t proc).exitCode = 0)
    ∧ ((execute command wd t proc).error ≠ none ↔
      (execute command wd t proc).success = false) := by
  cases proc with
  | completed rc out err =>
    by_cases h : rc = 0 <;> simp [execute, h]
  | timedOut => simp [execute]
  | faulted e => simp [execute]

/-- Claim C3 is a code bug: the spec (and the pydantic Field's own
description, "default: unlimited") says an absent timeoutSeconds means
unlimited execution, but both handler paths call FFmpegExecutor.execute
with timeout 21600 when the request's timeout is absent — never with the
None that execute's unlimited branch supports.  Evaluated at a concrete
valid request with no timeout, both cores record an execution whose
timeout argument is some 21600, not none. -/
theorem absent_timeout_gets_21600_bound :
    mcpToolsCallCore fsAll (ProcOutcome.completed 0 "v" "") "ffmpeg -version" none none
      = Outcome.executed "ffmpeg -version" (some "/work") (some 21600)
          (execute "ffmpeg -version" (some "/work") (some 21600)
            (ProcOutcome.completed 0 "v" ""))
    ∧ invokeToolCore fsAll (ProcOutcome.completed 0 "v" "") "ffmpeg -version" none none
      = Outcome.executed "ffmpeg -version" (some "/work") (some 21600)
          (execute "ffmpeg -version" (some "/work") (some 21600)
            (ProcOutcome.completed 0 "v" "")) :=
  ⟨rfl, rfl⟩

/-- Claim C7: when the wall-clock timeout expires before the child process
finishes (subprocess.run raises TimeoutExpired, only possible when a
timeout t was passed), execute returns succeeded=false, exitCode=-1, empty
stdout, and stderr/errorMessage stating the elapsed timeout. -/
theorem execute_timeout_shape (command : String) (wd : Option String) (t : Int) :
    execute command wd (some t) ProcOutcome.timedOut =
      { success := false, exitCode := -1, stdout := "",
        stderr := "Command timed out after " ++ toString t ++ " seconds",
        error := some ("Command timed out after " ++ toString t ++ " seconds") } := rfl

/-- Claim C10: on identical argument sets {command, workingDir, timeout},
the JSON-RPC tools/call handler and the REST invoke handler perform the
same computation over the core: same pydantic parse, same validators, and
the same call to FFmpegExecutor.execute (including the same 21600 default
for an absent timeout), hence the same underlying ExecutionResult. -/
theorem mcp_and_rest_paths_agree (fs : FS) (proc : ProcOutcome)
    (command : String) (workingDir : Option String) (timeout : Option Int) :
    mcpToolsCallCore fs proc command workingDir timeout
      = invokeToolCore fs proc command workingDir timeout := rfl

/-- A single character occurring in a list is found by substring search. -/
theorem hasSubChars_singleton_of_mem {a : Char} {l : List Char} (h : a ∈ l) :
    hasSubChars [a] l = true := by
  induction l with
  | nil => cases h
  | cons c cs ih =>
    cases h with
    | head => simp [hasSubChars, hasPrefixChars]
    | tail _ h => simp [hasSubChars, ih h]

/-- Claim C4: every string whose stripped form does not start with the
exact prefix "ffmpeg " is rejected by validate_command with the
InvalidCommand reason; no such string is ever accepted. -/
theorem validate_command_rejects_bad_prefix (s : String)
    (h : pyStartsWith (pyStrip s) "ffmpeg " = false) :
    validate_command s = (false, "Command must start with 'ffmpeg '") := by
  simp [validate_command, h]

theorem validate_command_rejects_bad_prefix_witness :
    pyStartsWith (pyStrip "ls -la") "ffmpeg " = false
    ∧ validate_command "ls -la" = (false, "Command must start with 'ffmpeg '") :=
  ⟨by decide, validate_command_rejects_bad_prefix "ls -la" (by decide)⟩

/-- Claim C5: every string containing one of the denylisted operator
substrings anywhere in it is rejected by validate_command (by the operator
check when it passes the prefix check, by the prefix check otherwise),
even when it starts with "ffmpeg ". -/
theorem validate_command_rejects_blocked_ops (s op : String)
    (hop : op ∈ BLOCKED_OPERATORS) (hsub : strContains s op = true) :
    (validate_command s).1 = false := by
  cases hpre : pyStartsWith (pyStrip s) "ffmpeg " with
  | false => simp [validate_command, hpre]
  | true =>
    cases hf : firstBlocked s with
    | some o => simp [validate_command, hpre, hf]
    | none =>
      exfalso
      have hnone := List.find?_eq_none.mp hf op hop
      rw [hsub] at hnone
      exact hnone rfl

theorem validate_command_rejects_blocked_ops_witness :
    (";" ∈ BLOCKED_OPERATORS ∧ strContains "ffmpeg -i a.mp4 b.mp4; rm x" ";" = true)
    ∧ (validate_command "ffmpeg -i a.mp4 b.mp4; rm x").1 = false :=
  ⟨⟨by decide, by decide⟩,
    validate_command_rejects_blocked_ops "ffmpeg -i a.mp4 b.mp4; rm x" ";"
      (by decide) (by decide)⟩

/-- Claim C6: every string containing a line-feed or carriage-return
character anywhere in it is rejected by validate_command, whatever its
other content (the newline check catches it when the prefix and operator
checks pass). -/
theorem validate_command_rejects_newlines (s : String)
    (h : '\n' ∈ s.data ∨ '\r' ∈ s.data) :
    (validate_command s).1 = false := by
  have hc : strContains s "\n" = true ∨ strContains s "\r" = true := by
    cases h with
    | inl h => exact Or.inl (hasSubChars_singleton_of_mem h)
    | inr h => exact Or.inr (hasSubChars_singleton_of_mem h)
  cases hpre : pyStartsWith (pyStrip s) "ffmpeg " with
  | false => simp [validate_command, hpre]
  | true =>
    cases hf : firstBlocked s with
    | some o => simp [validate_command, hpre, hf]
    | none =>
      cases hc with
      | inl hc => simp [validate_command, hpre, hf, hc]
      | inr hc => simp [validate_command, hpre, hf, hc]

theorem validate_command_rejects_newlines_witness :
    '\n' ∈ ("ffmpeg -i a.mp4\nb.mp4" : String).data
    ∧ (validate_command "ffmpeg -i a.mp4\nb.mp4").1 = false :=
  ⟨by decide, validate_command_rejects_newlines "ffmpeg -i a.mp4\nb.mp4"
    (Or.inl (by decide))⟩

/-- Claim C8: validate_working_dir succeeds on an absent or empty input,
resolving to the process's current working directory; on a non-empty input
it is invalid exactly when path resolution raises, or the resolved path
does not exist, or exists but is not a directory — and a resolution error
yields an InvalidWorkingDirectory result, never a raised fault (the
function is total). -/
theorem validate_working_dir_spec (fs : FS) (wd : Option String) :
    ((wd = none ∨ wd = some "") →
      validate_working_dir fs wd = (true, "", some fs.getcwd))
    ∧ (∀ w, wd = some w → w ≠ "" →
        ((validate_working_dir fs wd).1 = false ↔
          (∃ e, fs.abspath w = Except.error e)
          ∨ (∃ r, fs.abspath w = Except.ok r ∧
              (fs.pathExists r = false
                ∨ (fs.pathExists r = true ∧ fs.isdir r = false))))) := by
  constructor
  · rintro (rfl | rfl) <;> simp [validate_working_dir]
  · rintro w rfl hw
    simp only [validate_working_dir, if_neg hw]
    cases habs : fs.abspath w with
    | error e => simp
    | ok r =>
      by_cases hex : fs.pathExists r <;> by_cases hd : fs.isdir r <;>
        simp [hex, hd]

theorem validate_working_dir_spec_witness :
    validate_working_dir fsAll none = (true, "", some "/work") :=
  (validate_working_dir_spec fsAll none).1 (Or.inl rfl)

/-- Supporting lemma: in the pipeline shared by both handler paths, once
the request parses, a failure of validate_command or validate_working_dir
short-circuits the core: the outcome is a validation rejection carrying
the failing validator's reason (the command reason when the command check
fails, else the working-directory reason), and in particular it is never
an execution — FFmpegExecutor.execute is not invoked and no child process
is spawned.  This is the half of claim C9 that the code satisfies; see
rest_validation_failure_becomes_500 for the half it violates. -/
theorem handlers_short_circuit_on_invalid (fs : FS) (proc : ProcOutcome)
    (command : String) (workingDir : Option String) (timeout : Option Int)
    (cmd : String) (hp : parseRequest command timeout = some cmd)
    (hinv : (validate_command cmd).1 = false
      ∨ (validate_working_dir fs workingDir).1 = false) :
    ∃ msg,
      mcpToolsCallCore fs proc command workingDir timeout
        = Outcome.validationError msg
      ∧ invokeToolCore fs proc command workingDir timeout
        = Outcome.validationError msg
      ∧ msg = (if (validate_command cmd).1 then
          (validate_working_dir fs workingDir).2.1
        else (validate_command cmd).2)
      ∧ (∀ c rd t2 res,
          mcpToolsCallCore fs proc command workingDir timeout
            ≠ Outcome.executed c rd t2 res)
      ∧ (∀ c rd t2 res,
          invokeToolCore fs proc command workingDir timeout
            ≠ Outcome.executed c rd t2 res) := by
  rcases hv : validate_command cmd with ⟨b, m⟩
  cases b with
  | false =>
    refine ⟨m, ?_, ?_, ?_, ?_, ?_⟩ <;>
      simp [mcpToolsCallCore, invokeToolCore, hp, hv]
  | true =>
    rcases hinv with hinv | hinv
    · rw [hv] at hinv; exact absurd hinv (by simp)
    · rcases hw : validate_working_dir fs workingDir with ⟨b2, m2, r⟩
      cases b2 with
      | false =>
        refine ⟨m2, ?_, ?_, ?_, ?_, ?_⟩ <;>
          simp [mcpToolsCallCore, invokeToolCore, hp, hv, hw]
      | true => rw [hw] at hinv; exact absurd hinv (by simp)

theorem handlers_short_circuit_on_invalid_witness :
    ∃ msg, mcpToolsCallCore fsAll (ProcOutcome.completed 0 "" "")
      "ffmpeg -i a.mp4 out.mp4|cat" none none = Outcome.validationError msg := by
  obtain ⟨m, h1, -⟩ :=
    handlers_short_circuit_on_invalid fsAll (ProcOutcome.completed 0 "" "")
      "ffmpeg -i a.mp4 out.mp4|cat" none none "ffmpeg -i a.mp4 out.mp4|cat"
      (by decide) (Or.inl (by decide))
  exact ⟨m, h1⟩

/-- Claim C9 is a code bug on the REST path.  Evaluating both endpoints at
a concrete request rejected by validate_command (a blocked | operator):
the JSON-RPC tools/call path does return the reason as a client-input
error object (code -32602), and neither path reaches an execution, but the
REST invoke path does not return the 400 client-input error its try body
raises — the catch-all except Exception (server.py:508-510) intercepts
the HTTPException(400, reason) and re-raises a 500 "Internal server
error", contradicting the claim (and the deliberate 400 raise at
server.py:481/486). -/
theorem rest_validation_failure_becomes_500 :
    handleMcpToolsCall fsAll (ProcOutcome.completed 0 "" "")
      "ffmpeg -i a.mp4 out.mp4|cat" none none
      = McpReply.rpcError (-32602) "Blocked shell operator detected: |"
    ∧ invokeToolRest fsAll (ProcOutcome.completed 0 "" "")
      "ffmpeg -i a.mp4 out.mp4|cat" none none
      = RestReply.httpError 500
          ("Internal server error: "
            ++ strHTTPException 400 "Blocked shell operator detected: |") :=
  ⟨rfl, rfl⟩

end FFmpegMCP
